import Mathlib

/-!
# SolarSoilSensor: message dispatch of the firmware stub

Shallow embedding of `src/SolarSoilSensor.cpp` (`setup`, `loop`, `sendMessage`) and of
the identity table of `src/deviceIDs.h`.

The firmware functions return nothing and act only through calls into the platform
library (`waitFor`, `Log.info`, `Particle.publish`, `delay`).  Each such call is
recorded, in program order, in the `trace` of an explicit `Device` state that every
function takes and returns.  The three build switches are integer macros in the
source; they are the fields of `Config` and are compared with `== 1` exactly where
the source compares them.
-/

namespace SolarSoilSensor

/-- Row type of the identity table, `struct devID` of `deviceIDs.h`. -/
structure devID where
  id : String
  name : String
  deriving DecidableEq, Repr

/-- Identity table `deviceIDs[]` of `deviceIDs.h`. -/
def deviceIDs : List devID :=
  [ { id := "xxxxxxxxxxxxxxxxx", name := "BLE-Xen1" },
    { id := "yyyyyyyyyyyyyyyyy", name := "BLE-Xen6" } ]

/-- Build switches, the macros `BLEMODE`, `USESERIAL` and `CALIBRATE`.  A switch is
on when its macro is `1` and off when it is `0`. -/
structure Config where
  BLEMODE : Nat
  USESERIAL : Nat
  CALIBRATE : Nat
  deriving DecidableEq, Repr

/-- Build switches as the source file defines them: `BLEMODE 1`, `USESERIAL 1`,
`CALIBRATE 0`. -/
def shipped : Config := { BLEMODE := 1, USESERIAL := 1, CALIBRATE := 0 }

/-- Calls into the platform that the firmware can make.  `broadcast` is the call of the
short range transport; it is part of the event vocabulary so that its absence from a
trace can be stated, and no function of the source emits it. -/
inductive Effect where
  | waitFor (timeout : Nat)
  | logInfo (text : String)
  | publish (type msg : String)
  | delay (ms : Nat)
  | broadcast (type msg : String) (identity : devID)
  deriving DecidableEq, Repr

/-- State threaded through the firmware: the value of `System.deviceID()`, the value
that `Serial.isConnected` has when a wait on it ends, and the platform calls made so
far, oldest first. -/
structure Device where
  deviceID : String
  serialConnected : Bool
  trace : List Effect
  deriving DecidableEq, Repr

/-- Record one platform call at the end of the trace. -/
def Device.emit (d : Device) (e : Effect) : Device :=
  { d with trace := d.trace ++ [e] }

/-- Platform call `waitFor(Serial.isConnected, timeout)`: the call is recorded, its
result is the value of the condition when the wait ends. -/
def waitFor (timeout : Nat) (d : Device) : Bool × Device :=
  (d.serialConnected, d.emit (Effect.waitFor timeout))

/-- Platform call `Log.info(text)`. -/
def Log.info (text : String) (d : Device) : Device :=
  d.emit (Effect.logInfo text)

/-- Platform call `Particle.publish(type, msg)`. -/
def Particle.publish (type msg : String) (d : Device) : Device :=
  d.emit (Effect.publish type msg)

/-- Platform call `delay(ms)`. -/
def delay (ms : Nat) (d : Device) : Device :=
  d.emit (Effect.delay ms)

/-- Source function `sendMessage(type, msg)`.  The last statement sits under
`#if USESERIAL==1` in the source, so it is present exactly when that test holds. -/
def sendMessage (cfg : Config) (type msg : String) (d : Device) : Device :=
  let d1 := if cfg.BLEMODE == 1 then d else Particle.publish type msg d
  let d2 := if cfg.USESERIAL == 1 then Log.info msg d1 else d1
  if cfg.USESERIAL == 1 then Log.info "Really are using log serial" d2 else d2

/-- Source function `setup()`.  The result of the wait is discarded, as in the source. -/
def setup (cfg : Config) (d : Device) : Device :=
  if cfg.USESERIAL == 1 then
    let d1 := (waitFor 3000 d).2
    Log.info ("Starting BLE Solar Soil Sensor with device ID " ++ d1.deviceID ++ "....") d1
  else d

/-- Source function `loop()`. -/
def loop (cfg : Config) (d : Device) : Device :=
  delay 5000 (sendMessage cfg "Test" "In a loop" d)

/-- Arguments of the `Particle.publish` calls of a trace, in order. -/
def publishCalls (tr : List Effect) : List (String × String) :=
  tr.filterMap fun e => match e with
    | Effect.publish t m => some (t, m)
    | _ => none

/-- Arguments of the broadcast calls of a trace, in order. -/
def broadcastCalls (tr : List Effect) : List (String × String × devID) :=
  tr.filterMap fun e => match e with
    | Effect.broadcast t m i => some (t, m, i)
    | _ => none

/-- Arguments of the `Log.info` calls of a trace, in order. -/
def logCalls (tr : List Effect) : List String :=
  tr.filterMap fun e => match e with
    | Effect.logInfo s => some s
    | _ => none

/-- Arguments of the `delay` calls of a trace, in order. -/
def delayCalls (tr : List Effect) : List Nat :=
  tr.filterMap fun e => match e with
    | Effect.delay ms => some ms
    | _ => none

/-- Whether a call is an externally observable write: a transport call or a log write. -/
def Effect.isWrite : Effect → Bool
  | Effect.publish _ _ => true
  | Effect.broadcast _ _ _ => true
  | Effect.logInfo _ => true
  | Effect.waitFor _ => false
  | Effect.delay _ => false

/-- Number of externally observable writes in a trace. -/
def writes (tr : List Effect) : Nat :=
  (tr.filter Effect.isWrite).length

/-- Whether a call is a publish or a delay; used to look at how the two interleave. -/
def Effect.isPublishOrDelay : Effect → Bool
  | Effect.publish _ _ => true
  | Effect.delay _ => true
  | _ => false

/-- Starting state used at concrete inputs: nothing has been called yet. -/
def d0 : Device := { deviceID := "e00fce68", serialConnected := false, trace := [] }

/-! ## Trace of each source function -/

/-- Calls made by one `sendMessage`, as a function of the switches. -/
theorem sendMessage_trace (cfg : Config) (t b : String) (d : Device) :
    (sendMessage cfg t b d).trace =
      d.trace
        ++ (if cfg.BLEMODE = 1 then [] else [Effect.publish t b])
        ++ (if cfg.USESERIAL = 1
            then [Effect.logInfo b, Effect.logInfo "Really are using log serial"]
            else []) := by
  by_cases hb : cfg.BLEMODE = 1 <;> by_cases hs : cfg.USESERIAL = 1 <;>
    simp [sendMessage, Particle.publish, Log.info, Device.emit, hb, hs]

/-- The fields of the state other than the trace are left alone by `sendMessage`. -/
theorem sendMessage_env (cfg : Config) (t b : String) (d : Device) :
    (sendMessage cfg t b d).deviceID = d.deviceID ∧
      (sendMessage cfg t b d).serialConnected = d.serialConnected := by
  by_cases hb : cfg.BLEMODE = 1 <;> by_cases hs : cfg.USESERIAL = 1 <;>
    simp [sendMessage, Particle.publish, Log.info, Device.emit, hb, hs]

/-- Calls made by one `loop`. -/
theorem loop_trace (cfg : Config) (d : Device) :
    (loop cfg d).trace =
      d.trace
        ++ ((if cfg.BLEMODE = 1 then [] else [Effect.publish "Test" "In a loop"])
        ++ (if cfg.USESERIAL = 1
            then [Effect.logInfo "In a loop", Effect.logInfo "Really are using log serial"]
            else [])
        ++ [Effect.delay 5000]) := by
  simp [loop, delay, Device.emit, sendMessage_trace]

/-- Calls made by `n` consecutive runs of `loop`. -/
theorem loop_iterate_trace (cfg : Config) (n : Nat) (d : Device) :
    ((loop cfg)^[n] d).trace =
      d.trace ++ (List.replicate n
        ((if cfg.BLEMODE = 1 then [] else [Effect.publish "Test" "In a loop"])
        ++ (if cfg.USESERIAL = 1
            then [Effect.logInfo "In a loop", Effect.logInfo "Really are using log serial"]
            else [])
        ++ [Effect.delay 5000])).flatten := by
  induction n generalizing d with
  | zero => simp
  | succ k ih =>
    rw [Function.iterate_succ_apply, ih, loop_trace, List.replicate_succ, List.flatten_cons,
      List.append_assoc]

/-- Calls made by `setup`. -/
theorem setup_trace (cfg : Config) (d : Device) :
    (setup cfg d).trace =
      d.trace ++ (if cfg.USESERIAL = 1
        then [Effect.waitFor 3000,
              Effect.logInfo
                ("Starting BLE Solar Soil Sensor with device ID " ++ d.deviceID ++ "....")]
        else []) := by
  by_cases hs : cfg.USESERIAL = 1 <;>
    simp [setup, waitFor, Log.info, Device.emit, hs]

/-! ## Claims -/

/-- C1: with BLEMODE off, whatever the other two switches are, one `sendMessage(t, b)`
adds exactly one publish call to the history, and that call is `publish(t, b)`. -/
theorem C1_publish_once (cfg : Config) (t b : String) (d : Device)
    (h : cfg.BLEMODE = 0) :
    publishCalls (sendMessage cfg t b d).trace = publishCalls d.trace ++ [(t, b)] := by
  rw [sendMessage_trace]
  by_cases hs : cfg.USESERIAL = 1 <;> simp [publishCalls, h, hs]

/-- Witness of C1 on a build with BLEMODE off and the serial log on. -/
theorem C1_publish_once_witness :
    (({ BLEMODE := 0, USESERIAL := 1, CALIBRATE := 0 } : Config).BLEMODE = 0) ∧
      publishCalls (sendMessage { BLEMODE := 0, USESERIAL := 1, CALIBRATE := 0 } "Temp" "23C"
        { deviceID := "e00fce68", serialConnected := true, trace := [] }).trace
        = publishCalls [] ++ [("Temp", "23C")] :=
  ⟨rfl, C1_publish_once _ "Temp" "23C" _ rfl⟩

/-- C2 as stated fails: on a build with BLEMODE on and the serial log off,
`sendMessage("Temp", "23C")` makes no broadcast call. -/
theorem C2_counterexample :
    ¬ (publishCalls (sendMessage { BLEMODE := 1, USESERIAL := 0, CALIBRATE := 0 }
          "Temp" "23C" d0).trace = [] ∧
        ∃ i, broadcastCalls (sendMessage { BLEMODE := 1, USESERIAL := 0, CALIBRATE := 0 }
          "Temp" "23C" d0).trace = [("Temp", "23C", i)]) := by
  simp [sendMessage_trace, broadcastCalls, d0]

/-- C2, amended: with BLEMODE on, one `sendMessage(t, b)` adds no publish call and no
broadcast call to the history (the message is dropped), and when the serial log is off
as well it makes no call at all. -/
theorem C2_drop_when_ble (cfg : Config) (t b : String) (d : Device)
    (h : cfg.BLEMODE = 1) :
    publishCalls (sendMessage cfg t b d).trace = publishCalls d.trace ∧
      broadcastCalls (sendMessage cfg t b d).trace = broadcastCalls d.trace ∧
      (cfg.USESERIAL = 0 → (sendMessage cfg t b d).trace = d.trace) := by
  rw [sendMessage_trace]
  refine ⟨?_, ?_, ?_⟩
  · by_cases hs : cfg.USESERIAL = 1 <;> simp [publishCalls, h, hs]
  · by_cases hs : cfg.USESERIAL = 1 <;> simp [broadcastCalls, h, hs]
  · intro hs
    simp [h, hs]

/-- Witness of the amended C2 on the scenario of the claim. -/
theorem C2_drop_when_ble_witness :
    (({ BLEMODE := 1, USESERIAL := 0, CALIBRATE := 0 } : Config).BLEMODE = 1) ∧
      (({ BLEMODE := 1, USESERIAL := 0, CALIBRATE := 0 } : Config).USESERIAL = 0) ∧
      (sendMessage { BLEMODE := 1, USESERIAL := 0, CALIBRATE := 0 } "Temp" "23C" d0).trace
        = d0.trace :=
  ⟨rfl, rfl, (C2_drop_when_ble _ "Temp" "23C" d0 rfl).2.2 rfl⟩

/-- C3: with USESERIAL on, whatever BLEMODE is, one `sendMessage(t, b)` adds exactly two
log calls to the history: first the body `b`, then one fixed text. -/
theorem C3_two_logs (cfg : Config) (t b : String) (d : Device)
    (h : cfg.USESERIAL = 1) :
    logCalls (sendMessage cfg t b d).trace
      = logCalls d.trace ++ [b, "Really are using log serial"] := by
  rw [sendMessage_trace]
  by_cases hb : cfg.BLEMODE = 1 <;> simp [logCalls, h, hb]

/-- Witness of C3 on a build with BLEMODE off and the serial log on. -/
theorem C3_two_logs_witness :
    (({ BLEMODE := 0, USESERIAL := 1, CALIBRATE := 0 } : Config).USESERIAL = 1) ∧
      logCalls (sendMessage { BLEMODE := 0, USESERIAL := 1, CALIBRATE := 0 } "Temp" "23C"
        d0).trace = logCalls d0.trace ++ ["23C", "Really are using log serial"] :=
  ⟨rfl, C3_two_logs _ "Temp" "23C" d0 rfl⟩

/-- C4: with USESERIAL off, whatever BLEMODE is, one `sendMessage(t, b)` adds no log call
to the history. -/
theorem C4_no_logs (cfg : Config) (t b : String) (d : Device)
    (h : cfg.USESERIAL = 0) :
    logCalls (sendMessage cfg t b d).trace = logCalls d.trace := by
  rw [sendMessage_trace]
  by_cases hb : cfg.BLEMODE = 1 <;> simp [logCalls, h, hb]

/-- Witness of C4 on a build with BLEMODE off and the serial log off. -/
theorem C4_no_logs_witness :
    (({ BLEMODE := 0, USESERIAL := 0, CALIBRATE := 0 } : Config).USESERIAL = 0) ∧
      logCalls (sendMessage { BLEMODE := 0, USESERIAL := 0, CALIBRATE := 0 } "Temp" "23C"
        d0).trace = logCalls d0.trace :=
  ⟨rfl, C4_no_logs _ "Temp" "23C" d0 rfl⟩

/-- C5 as stated fails: on a build with USESERIAL off, `setup()` makes no log call. -/
theorem C5_counterexample :
    ¬ ((logCalls (setup { BLEMODE := 1, USESERIAL := 0, CALIBRATE := 0 } d0).trace).length
        = 1) := by
  simp [setup_trace, logCalls, d0]

/-- C5, amended: `setup()` adds exactly one log call, the greeting built around the
device identifier, when USESERIAL is on, and adds no log call otherwise; the greeting
is gated by the same test as the wait. -/
theorem C5_greeting_gated (cfg : Config) (d : Device) :
    logCalls (setup cfg d).trace =
      logCalls d.trace ++ (if cfg.USESERIAL = 1
        then ["Starting BLE Solar Soil Sensor with device ID " ++ d.deviceID ++ "...."]
        else []) := by
  rw [setup_trace]
  by_cases hs : cfg.USESERIAL = 1 <;> simp [logCalls, hs]

/-- C6: with BLEMODE off, `n` runs of `loop()` add exactly `n` publish calls, each
`publish("Test", "In a loop")`, and exactly `n` delays of 5000, and publishes and delays
alternate, each publish followed by its delay. -/
theorem C6_loop_publishes (cfg : Config) (n : Nat) (d : Device)
    (h : cfg.BLEMODE = 0) :
    publishCalls ((loop cfg)^[n] d).trace
        = publishCalls d.trace ++ List.replicate n ("Test", "In a loop") ∧
      delayCalls ((loop cfg)^[n] d).trace = delayCalls d.trace ++ List.replicate n 5000 ∧
      ((loop cfg)^[n] d).trace.filter Effect.isPublishOrDelay
        = d.trace.filter Effect.isPublishOrDelay
          ++ (List.replicate n
                [Effect.publish "Test" "In a loop", Effect.delay 5000]).flatten := by
  rw [loop_iterate_trace]
  refine ⟨?_, ?_, ?_⟩
  · by_cases hs : cfg.USESERIAL = 1 <;> simp [publishCalls, h, hs]
  · by_cases hs : cfg.USESERIAL = 1 <;> simp [delayCalls, h, hs]
  · by_cases hs : cfg.USESERIAL = 1 <;> simp [Effect.isPublishOrDelay, h, hs]

/-- Witness of C6: three runs on a build with BLEMODE off. -/
theorem C6_loop_publishes_witness :
    (({ BLEMODE := 0, USESERIAL := 1, CALIBRATE := 0 } : Config).BLEMODE = 0) ∧
      publishCalls ((loop { BLEMODE := 0, USESERIAL := 1, CALIBRATE := 0 })^[3] d0).trace
        = publishCalls d0.trace ++ List.replicate 3 ("Test", "In a loop") ∧
      delayCalls ((loop { BLEMODE := 0, USESERIAL := 1, CALIBRATE := 0 })^[3] d0).trace
        = delayCalls d0.trace ++ List.replicate 3 5000 ∧
      ((loop { BLEMODE := 0, USESERIAL := 1, CALIBRATE := 0 })^[3] d0).trace.filter
          Effect.isPublishOrDelay
        = d0.trace.filter Effect.isPublishOrDelay
          ++ (List.replicate 3
                [Effect.publish "Test" "In a loop", Effect.delay 5000]).flatten :=
  ⟨rfl, C6_loop_publishes _ 3 d0 rfl⟩

/-- C7 as stated fails: the second log record of `sendMessage("Temp", "23C")` on a build
with BLEMODE off and USESERIAL on is not the text "logging path active". -/
theorem C7_counterexample :
    (sendMessage { BLEMODE := 0, USESERIAL := 1, CALIBRATE := 0 } "Temp" "23C" d0).trace
      ≠ [Effect.publish "Temp" "23C", Effect.logInfo "23C",
          Effect.logInfo "logging path active"] := by
  simp [sendMessage_trace, d0]

/-- C7, amended: on a build with BLEMODE off and USESERIAL on, `sendMessage("Temp", "23C")`
makes exactly these calls, in this order: `publish("Temp", "23C")`, log "23C", log
"Really are using log serial". -/
theorem C7_scenario_trace (c : Nat) (d : Device) :
    (sendMessage { BLEMODE := 0, USESERIAL := 1, CALIBRATE := c } "Temp" "23C" d).trace
      = d.trace ++ [Effect.publish "Temp" "23C", Effect.logInfo "23C",
          Effect.logInfo "Really are using log serial"] := by
  simp [sendMessage_trace]

/-- C8 as stated fails: on a build with BLEMODE off and USESERIAL on, one `sendMessage`
makes three observable writes. -/
theorem C8_counterexample :
    ¬ (writes (sendMessage { BLEMODE := 0, USESERIAL := 1, CALIBRATE := 0 }
        "Temp" "23C" d0).trace ≤ 2) := by
  simp [sendMessage_trace, writes, Effect.isWrite, d0]

/-- C8, amended: one `sendMessage(t, b)` adds zero, one, two or three observable writes to
the history, never more than three: one publish unless BLEMODE is on, and two log
records when USESERIAL is on. -/
theorem C8_at_most_three_writes (cfg : Config) (t b : String) (d : Device) :
    writes (sendMessage cfg t b d).trace
        = writes d.trace + (if cfg.BLEMODE = 1 then 0 else 1)
            + (if cfg.USESERIAL = 1 then 2 else 0) ∧
      writes (sendMessage cfg t b d).trace ≤ writes d.trace + 3 := by
  rw [sendMessage_trace]
  by_cases hb : cfg.BLEMODE = 1 <;> by_cases hs : cfg.USESERIAL = 1 <;>
    simp [writes, Effect.isWrite, hb, hs]

/-- C9: with USESERIAL on, `setup()` makes exactly two calls: first one wait with timeout
3000, then the greeting log; the calls are the same whether the wait ends with the link
connected or not, and `setup` has no failure result. -/
theorem C9_setup_wait_then_greet (cfg : Config) (d : Device) (connected : Bool)
    (h : cfg.USESERIAL = 1) :
    (waitFor 3000 { d with serialConnected := connected }).1 = connected ∧
      (setup cfg { d with serialConnected := connected }).trace
        = d.trace ++ [Effect.waitFor 3000,
            Effect.logInfo
              ("Starting BLE Solar Soil Sensor with device ID " ++ d.deviceID ++ "....")] := by
  refine ⟨rfl, ?_⟩
  rw [setup_trace]
  simp [h]

/-- Witness of C9: the wait times out on the shipped build. -/
theorem C9_setup_wait_then_greet_witness :
    (shipped.USESERIAL = 1) ∧
      (waitFor 3000 { d0 with serialConnected := false }).1 = false ∧
      (setup shipped { d0 with serialConnected := false }).trace
        = d0.trace ++ [Effect.waitFor 3000,
            Effect.logInfo
              ("Starting BLE Solar Soil Sensor with device ID " ++ d0.deviceID ++ "....")] :=
  ⟨rfl, C9_setup_wait_then_greet shipped d0 false rfl⟩

/-- C10: on the shipped build one `loop()` makes exactly three calls, log "In a loop",
log "Really are using log serial", delay 5000; so `n` runs add no publish call, no
broadcast call, and `2 * n` log records. -/
theorem C10_shipped_loop (n : Nat) (d : Device) :
    (loop shipped d).trace
        = d.trace ++ [Effect.logInfo "In a loop",
            Effect.logInfo "Really are using log serial", Effect.delay 5000] ∧
      publishCalls ((loop shipped)^[n] d).trace = publishCalls d.trace ∧
      broadcastCalls ((loop shipped)^[n] d).trace = broadcastCalls d.trace ∧
      logCalls ((loop shipped)^[n] d).trace
        = logCalls d.trace
          ++ (List.replicate n ["In a loop", "Really are using log serial"]).flatten ∧
      (logCalls ((loop shipped)^[n] d).trace).length = (logCalls d.trace).length + 2 * n := by
  rw [loop_iterate_trace, loop_trace]
  refine ⟨?_, ?_, ?_, ?_, ?_⟩
  · simp [shipped]
  · simp [shipped, publishCalls]
  · simp [shipped, broadcastCalls]
  · simp [shipped, logCalls]
  · simp [shipped, logCalls]
    omega

end SolarSoilSensor
